import Mathlib

/-
Verification of the multi-model fan-out adapter in yellowbrick/base.py
(class MultiModelMixin): input normalization, default display-name
derivation, subplot allocation and per-model cross-validated prediction.

The adapter's collaborators live outside the sources under verification:
the capability check and the name extractor come from the utils module of
this repository, and the display-surface provider and the cross-validation
routine come from matplotlib and scikit-learn.  Those are modelled from
the specification; everything on MultiModelMixin itself is translated
directly from base.py.
-/

/-- A model object as the adapter sees it: an opaque entity described by
which of the two estimator capabilities (fit, predict) it exposes and by
its class identifier.  `className = none` stands for an object whose
class identifier cannot be extracted by the name-derivation routine. -/
structure Model where
  hasFit : Bool
  hasPredict : Bool
  className : Option String
  deriving DecidableEq

/-- Modelled from the spec: `isestimator` from the utils module of this
repository (not under src/).  The single-estimator capability check: an
object passes when it exposes both fit and predict. -/
def isestimator (m : Model) : Bool :=
  m.hasFit && m.hasPredict

/-- Modelled from the spec: `get_model_name` from the utils module of this
repository (not under src/).  Derives a display name by extracting the
model's most-specific class identifier; it fails with a type-mismatch
error when the class identifier is not introspectable. -/
def get_model_name (m : Model) : Except String String :=
  match m.className with
  | some n => Except.ok n
  | none => Except.error "YellowbrickTypeError: cannot detect the model name"

/-- The `models` argument of the constructor: in base.py it is either a
single estimator object or an ordered collection of models; the
constructor distinguishes the two cases with the capability check (a
Python list exposes neither fit nor predict, so it never passes). -/
inductive ModelsArg where
  | single (m : Model)
  | collection (ms : List Model)
  deriving DecidableEq

/-- Eager evaluation of the default-names expression
`list(map(get_model_name, models))` of base.py line 127: names are
extracted left to right and the first extraction failure aborts the
whole list construction. -/
def mapNames : List Model → Except String (List String)
  | [] => Except.ok []
  | m :: rest =>
    match get_model_name m with
    | Except.error e => Except.error e
    | Except.ok n =>
      match mapNames rest with
      | Except.error e => Except.error e
      | Except.ok ns => Except.ok (n :: ns)

/-- The adapter state: the internal model collection and name collection
set by the constructor (fields self.models and self.names). -/
structure MultiModelMixin where
  models : List Model
  names : List String
  deriving DecidableEq

/-- Shallow embedding of `MultiModelMixin.__init__` (base.py lines
119-127).  A single object passing the capability check is wrapped into a
one-element list; a single object failing it is kept as-is, so the
subsequent `map` over it raises a TypeError (a Model is not iterable).
The default-names expression is an argument to `kwargs.pop` and is
therefore evaluated unconditionally, even when explicit names are
supplied; an extraction failure aborts construction either way. -/
def MultiModelMixin.init (arg : ModelsArg) (namesKw : Option (List String)) :
    Except String MultiModelMixin :=
  let models? : Except String (List Model) :=
    match arg with
    | ModelsArg.single m =>
      if isestimator m then Except.ok [m]
      else Except.error "TypeError: argument of type Model is not iterable"
    | ModelsArg.collection ms => Except.ok ms
  match models? with
  | Except.error e => Except.error e
  | Except.ok models =>
    match mapNames models with
    | Except.error e => Except.error e
    | Except.ok defaultNames =>
      Except.ok { models := models, names := namesKw.getD defaultNames }

/-- A display surface handle: its position in the allocated grid and the
axis-sharing policy it was allocated under. -/
structure Axes where
  index : Nat
  sharex : Bool
  sharey : Bool
  deriving DecidableEq

/-- Modelled from the spec: the display-surface provider (matplotlib
`plt.subplots`), an external collaborator.  Given a requested surface
count and a sharing policy it returns a figure handle together with that
many aligned surface handles, ordered by position, all sharing the x and
y axis scales as requested. -/
def plt_subplots (nrows : Nat) (sharex sharey : Bool) : Unit × List Axes :=
  ((), (List.range nrows).map (fun i => { index := i, sharex := sharex, sharey := sharey }))

/-- Shallow embedding of `MultiModelMixin.generate_subplots` (base.py
lines 129-134): allocates one subplot per model with shared x and y axes,
discards the figure handle and returns the axes.  The method assigns no
field of self, so the unchanged adapter state is returned alongside. -/
def MultiModelMixin.generate_subplots (self : MultiModelMixin) :
    List Axes × MultiModelMixin :=
  let fig_axes := plt_subplots self.models.length true true
  (fig_axes.2, self)

/-- Shallow embedding of `MultiModelMixin.predict` (base.py lines
136-142): a generator yielding, for each model in collection order, the
result of `cross_val_predict(model, X, y, cv=12)`.  The cross-validation
routine is external (scikit-learn) and is passed in as the function
`cvp`; a run that raises is an `Except.error` element.  The method
assigns no field of self, so the unchanged adapter state is returned
alongside the yielded elements. -/
def MultiModelMixin.predict {X Y E P : Type} (self : MultiModelMixin)
    (cvp : Model → X → Y → Nat → Except E P) (x : X) (y : Y) :
    List (Except E P) × MultiModelMixin :=
  (self.models.map (fun model => cvp model x y 12), self)

/-- Consuming the prediction generator to completion (for example by
building a list from it): elements are demanded in order, and the first
element that raises aborts the iteration and propagates its error
unwrapped, so the consumer receives either every prediction or a bare
error and no partial list. -/
def collectResults {E P : Type} : List (Except E P) → Except E (List P)
  | [] => Except.ok []
  | Except.error e :: _ => Except.error e
  | Except.ok p :: rest =>
    match collectResults rest with
    | Except.error e => Except.error e
    | Except.ok ps => Except.ok (p :: ps)

/-- C1: a single model passing the capability check is wrapped into the
one-element model collection [m], and the name collection is the
one-element list holding the class name of m. -/
theorem init_single_estimator (m : Model) (c : String)
    (hest : isestimator m = true) (hname : get_model_name m = Except.ok c) :
    MultiModelMixin.init (ModelsArg.single m) none =
      Except.ok { models := [m], names := [c] } := by
  simp [MultiModelMixin.init, hest, mapNames, hname]

/-- Witness for C1 at a concrete single estimator. -/
theorem init_single_estimator_witness :
    MultiModelMixin.init (ModelsArg.single ⟨true, true, some "LinearRegression"⟩) none =
      Except.ok { models := [⟨true, true, some "LinearRegression"⟩],
                  names := ["LinearRegression"] } :=
  init_single_estimator ⟨true, true, some "LinearRegression"⟩ "LinearRegression" rfl rfl

/-- An ok result of the default-names expression has one name per model. -/
theorem mapNames_length : ∀ (ms : List Model) (ns : List String),
    mapNames ms = Except.ok ns → ns.length = ms.length := by
  intro ms
  induction ms with
  | nil => intro ns h; simp [mapNames] at h; subst h; rfl
  | cons m rest ih =>
    intro ns h
    simp only [mapNames] at h
    cases hg : get_model_name m with
    | error e => rw [hg] at h; exact absurd h (by simp)
    | ok n =>
      rw [hg] at h
      cases hr : mapNames rest with
      | error e => rw [hr] at h; exact absurd h (by simp)
      | ok ns0 =>
        rw [hr] at h
        cases h
        simpa using ih ns0 hr

/-- Elementwise description of an ok result of the default-names
expression: the i-th derived name is the class name of the i-th model. -/
theorem mapNames_get? : ∀ (ms : List Model) (ns : List String),
    mapNames ms = Except.ok ns →
    ∀ i, ns.get? i = (ms.get? i).bind Model.className := by
  intro ms
  induction ms with
  | nil => intro ns h i; simp [mapNames] at h; subst h; simp
  | cons m rest ih =>
    intro ns h i
    simp only [mapNames] at h
    cases hg : get_model_name m with
    | error e => rw [hg] at h; exact absurd h (by simp)
    | ok n =>
      rw [hg] at h
      cases hr : mapNames rest with
      | error e => rw [hr] at h; exact absurd h (by simp)
      | ok ns0 =>
        rw [hr] at h
        cases h
        cases i with
        | zero =>
          simp only [List.get?, Option.bind]
          cases hc : m.className with
          | none => simp [get_model_name, hc] at hg
          | some c => simp [get_model_name, hc] at hg; simp [hg]
        | succ j => simpa using ih ns0 hr j

/-- If class-name extraction fails for a member, the whole default-names
expression fails. -/
theorem mapNames_mem_fail : ∀ (ms : List Model) (m : Model),
    m ∈ ms → (get_model_name m).isOk = false →
    (mapNames ms).isOk = false := by
  intro ms
  induction ms with
  | nil => intro m hm; exact absurd hm (List.not_mem_nil m)
  | cons m0 rest ih =>
    intro m hm hfail
    simp only [mapNames]
    cases List.mem_cons.mp hm with
    | inl heq =>
      subst heq
      cases hg : get_model_name m with
      | error e => simp [Except.isOk, Except.toBool]
      | ok n => rw [hg] at hfail; simp [Except.isOk, Except.toBool] at hfail
    | inr hmem =>
      cases hg : get_model_name m0 with
      | error e => simp [Except.isOk, Except.toBool]
      | ok n =>
        have := ih m hmem hfail
        cases hr : mapNames rest with
        | error e => simp [Except.isOk, Except.toBool]
        | ok ns => rw [hr] at this; simp [Except.isOk, Except.toBool] at this

/-- C2: a collection of models with no explicit names yields the model
collection unchanged and a name collection of the same length whose i-th
element is the class name of the i-th model. -/
theorem init_collection_default_names (ms : List Model) (ns : List String)
    (hne : ms ≠ []) (hnames : mapNames ms = Except.ok ns) :
    MultiModelMixin.init (ModelsArg.collection ms) none =
      Except.ok { models := ms, names := ns } ∧
    ns.length = ms.length ∧
    ∀ i, ns.get? i = (ms.get? i).bind Model.className := by
  refine ⟨?_, mapNames_length ms ns hnames, mapNames_get? ms ns hnames⟩
  simp [MultiModelMixin.init, hnames]

/-- Witness for C2 at a concrete two-model collection. -/
theorem init_collection_default_names_witness :
    MultiModelMixin.init
        (ModelsArg.collection [⟨true, true, some "Ridge"⟩, ⟨true, true, some "Lasso"⟩]) none =
      Except.ok { models := [⟨true, true, some "Ridge"⟩, ⟨true, true, some "Lasso"⟩],
                  names := ["Ridge", "Lasso"] } :=
  (init_collection_default_names
    [⟨true, true, some "Ridge"⟩, ⟨true, true, some "Lasso"⟩]
    ["Ridge", "Lasso"] (by decide) rfl).1

/-- C3: explicitly supplied names are used verbatim as the name
collection, whatever their length; no length validation is performed and
no error is raised for a mismatch (here ns and ms are unrelated). -/
theorem init_explicit_names_verbatim (ms : List Model) (ns ds : List String)
    (hd : mapNames ms = Except.ok ds) :
    MultiModelMixin.init (ModelsArg.collection ms) (some ns) =
      Except.ok { models := ms, names := ns } := by
  simp [MultiModelMixin.init, hd]

/-- Witness for C3: two models, three supplied names, construction
succeeds and keeps the three names verbatim. -/
theorem init_explicit_names_verbatim_witness :
    MultiModelMixin.init
        (ModelsArg.collection [⟨true, true, some "Ridge"⟩, ⟨true, true, some "Lasso"⟩])
        (some ["A", "B", "C"]) =
      Except.ok { models := [⟨true, true, some "Ridge"⟩, ⟨true, true, some "Lasso"⟩],
                  names := ["A", "B", "C"] } :=
  init_explicit_names_verbatim
    [⟨true, true, some "Ridge"⟩, ⟨true, true, some "Lasso"⟩]
    ["A", "B", "C"] ["Ridge", "Lasso"] rfl

/-- C10: the default-names expression is evaluated eagerly, so when
class-name extraction fails for any model, construction fails even though
explicit names were supplied and would have been used verbatim. -/
theorem init_eager_name_extraction (ms : List Model) (ns : List String) (m : Model)
    (hm : m ∈ ms) (hfail : (get_model_name m).isOk = false) :
    (MultiModelMixin.init (ModelsArg.collection ms) (some ns)).isOk = false := by
  have h := mapNames_mem_fail ms m hm hfail
  simp only [MultiModelMixin.init]
  cases hr : mapNames ms with
  | error e => simp [Except.isOk, Except.toBool]
  | ok ds => rw [hr] at h; simp [Except.isOk, Except.toBool] at h

/-- Witness for C10: one model with no introspectable class identifier,
explicit names supplied, construction still fails. -/
theorem init_eager_name_extraction_witness :
    (MultiModelMixin.init (ModelsArg.collection [⟨true, true, none⟩])
      (some ["X"])).isOk = false :=
  init_eager_name_extraction [⟨true, true, none⟩] ["X"] ⟨true, true, none⟩
    (by decide) rfl

/-- C4: the prediction generator yields exactly one element per model, in
model-collection order, the i-th element being the cross-validation
routine applied to the i-th model, X and y with a fold count of 12. -/
theorem predict_elementwise {X Y E P : Type} (a : MultiModelMixin)
    (cvp : Model → X → Y → Nat → Except E P) (x : X) (y : Y) :
    (a.predict cvp x y).1.length = a.models.length ∧
    ∀ i, (a.predict cvp x y).1.get? i = (a.models.get? i).map (fun m => cvp m x y 12) := by
  refine ⟨by simp [MultiModelMixin.predict], fun i => ?_⟩
  simp [MultiModelMixin.predict, List.get?_map]

/-- C5: subplot generation returns exactly one surface handle per model,
index-aligned with the model collection, every handle allocated under the
shared x-axis and shared y-axis policy. -/
theorem generate_subplots_spec (a : MultiModelMixin) :
    (a.generate_subplots).1.length = a.models.length ∧
    (a.generate_subplots).1.all (fun ax => ax.sharex && ax.sharey) = true ∧
    ∀ i, ((a.generate_subplots).1.get? i).map Axes.index =
      if i < a.models.length then some i else none := by
  refine ⟨by simp [MultiModelMixin.generate_subplots, plt_subplots], ?_, fun i => ?_⟩
  · simp only [MultiModelMixin.generate_subplots, plt_subplots, List.all_eq_true]
    intro ax hax
    rcases List.mem_map.mp hax with ⟨i, _, rfl⟩
    rfl
  · simp only [MultiModelMixin.generate_subplots, plt_subplots, List.get?_map]
    by_cases h : i < a.models.length
    · rw [List.get?_range h]
      simp [h]
    · rw [List.get?_eq_none.mpr (by simpa [List.length_range] using Nat.not_lt.mp h)]
      simp [h]

/-- Counterexample to C6: the constructor accepts the empty collection
and yields an adapter whose model collection is empty, so the non-empty
invariant does not hold for every constructible adapter state. -/
theorem init_empty_collection_counterexample :
    MultiModelMixin.init (ModelsArg.collection []) none =
      Except.ok { models := [], names := [] } := rfl

/-- C6 amended: for every input accepted by the constructor other than
the empty collection, the adapter's model collection is non-empty (the
empty collection is accepted without error and yields an empty model
collection). -/
theorem init_nonempty_amended (arg : ModelsArg) (nk : Option (List String))
    (a : MultiModelMixin) (hok : MultiModelMixin.init arg nk = Except.ok a)
    (hne : arg ≠ ModelsArg.collection []) :
    a.models ≠ [] := by
  cases arg with
  | single m =>
    by_cases hest : isestimator m
    · simp only [MultiModelMixin.init, hest, if_true] at hok
      cases hr : mapNames [m] with
      | error e => rw [hr] at hok; simp at hok
      | ok ds =>
        rw [hr] at hok
        simp only [Except.ok.injEq] at hok
        subst hok
        simp
    · simp only [MultiModelMixin.init, hest, if_false] at hok
      simp at hok
  | collection ms =>
    cases ms with
    | nil => exact absurd rfl hne
    | cons m rest =>
      simp only [MultiModelMixin.init] at hok
      cases hr : mapNames (m :: rest) with
      | error e => rw [hr] at hok; simp at hok
      | ok ds =>
        rw [hr] at hok
        simp only [Except.ok.injEq] at hok
        subst hok
        simp

/-- Witness for the amended C6 at a concrete one-model collection. -/
theorem init_nonempty_amended_witness :
    ({ models := [⟨true, true, some "Ridge"⟩], names := ["Ridge"] } :
      MultiModelMixin).models ≠ [] :=
  init_nonempty_amended (ModelsArg.collection [⟨true, true, some "Ridge"⟩]) none
    { models := [⟨true, true, some "Ridge"⟩], names := ["Ridge"] } rfl (by decide)

/-- If every element before a raising element succeeds, consuming the
sequence propagates exactly that first error. -/
theorem collectResults_first_error {E P : Type} :
    ∀ (l1 : List (Except E P)) (e : E) (l2 : List (Except E P)),
    (∀ r ∈ l1, r.isOk = true) →
    collectResults (l1 ++ Except.error e :: l2) = Except.error e := by
  intro l1
  induction l1 with
  | nil => intro e l2 _; rfl
  | cons r rest ih =>
    intro e l2 hok
    cases r with
    | error e0 =>
      have := hok (Except.error e0) (List.mem_cons_self _ _)
      simp [Except.isOk, Except.toBool] at this
    | ok p =>
      have hrest : ∀ r ∈ rest, r.isOk = true :=
        fun r hr => hok r (List.mem_cons_of_mem _ hr)
      simp only [List.cons_append, collectResults, List.append_eq, ih e l2 hrest]

/-- C7: when the cross-validation routine raises for some model and every
earlier model succeeded, consuming the prediction generator surfaces that
error unwrapped — the consumer receives the bare error and no partial
list of predictions. -/
theorem predict_error_propagation {X Y E P : Type} (a : MultiModelMixin)
    (cvp : Model → X → Y → Nat → Except E P) (x : X) (y : Y)
    (l1 l2 : List (Except E P)) (e : E)
    (hsplit : (a.predict cvp x y).1 = l1 ++ Except.error e :: l2)
    (hok : ∀ r ∈ l1, r.isOk = true) :
    collectResults (a.predict cvp x y).1 = Except.error e := by
  rw [hsplit]
  exact collectResults_first_error l1 e l2 hok

/-- Witness for C7: two models, the second one's cross-validation run
raises; the consumer gets the bare error, not a partial result. -/
theorem predict_error_propagation_witness :
    collectResults
      ((MultiModelMixin.predict
          { models := [⟨true, true, some "Ridge"⟩, ⟨false, true, some "Broken"⟩],
            names := [] }
          (fun m _ _ _ =>
            if m.hasFit then Except.ok "preds" else Except.error "ValueError")
          (0 : Nat) (0 : Nat)).1) = Except.error "ValueError" :=
  predict_error_propagation
    { models := [⟨true, true, some "Ridge"⟩, ⟨false, true, some "Broken"⟩], names := [] }
    (fun m _ _ _ => if m.hasFit then Except.ok "preds" else Except.error "ValueError")
    0 0 [Except.ok "preds"] [] "ValueError" rfl (by decide)

/-- C8: neither subplot generation nor prediction (consumed or not)
changes the adapter state: the models field and the names field after
each operation are those set at construction. -/
theorem ops_preserve_state {X Y E P : Type} (a : MultiModelMixin)
    (cvp : Model → X → Y → Nat → Except E P) (x : X) (y : Y) :
    (a.generate_subplots).2.models = a.models ∧
    (a.generate_subplots).2.names = a.names ∧
    (a.predict cvp x y).2.models = a.models ∧
    (a.predict cvp x y).2.names = a.names :=
  ⟨rfl, rfl, rfl, rfl⟩

/-- C9: prediction is reproducible: a second invocation on the state left
by a first invocation (with subplot generation in between) yields the
identical output sequence, and that output is recomputed from scratch as
the cross-validation of each model on X and y with 12 folds (the
embedding takes the routine as a function, which is the claim's
determinism hypothesis; the adapter holds no cache). -/
theorem predict_reproducible {X Y E P : Type} (a : MultiModelMixin)
    (cvp : Model → X → Y → Nat → Except E P) (x : X) (y : Y) :
    ((((a.predict cvp x y).2.generate_subplots).2.predict cvp x y).1 =
      (a.predict cvp x y).1) ∧
    (((a.predict cvp x y).2.generate_subplots).2.predict cvp x y).1 =
      a.models.map (fun m => cvp m x y 12) :=
  ⟨rfl, rfl⟩
